import Mathlib

/-!
Shallow embedding of the `riff` player subsystem: the credential record
(`src/app/credentials.rs`), the secret-service I/O around it, the in-process
token store (`src/player/token_store.rs`), the OAuth client
(`src/player/oauth2.rs`) and the session/player command actor
(`src/player/player.rs`).  External I/O (the OAuth token endpoint, the
streaming session's network connect, the spawned callback listener, the
D-Bus secret service) is parametrised by explicit environment records so the
pure control flow of the source is preserved; time (`SystemTime`) is a `Nat`
parameter.
-/

namespace Riff

/-- Credential record from `src/app/credentials.rs`.  The `oauth2.rs`
revision of the repository constructs `Credentials` with exactly these three
fields; the extra `username` field present in the `credentials.rs` revision
is carried by no claim and is omitted so that one type serves both files. -/
structure Credentials where
  access_token : String
  refresh_token : String
  token_expiry_time : Option Nat
deriving Repr, DecidableEq

/-- `Credentials::token_expired` (`credentials.rs` lines 24-29):
`match self.token_expiry_time { Some(v) => SystemTime::now() > v, None => true }`.
`now` stands for `SystemTime::now()`. -/
def Credentials.token_expired (now : Nat) (c : Credentials) : Bool :=
  match c.token_expiry_time with
  | some v => decide (now > v)
  | none => true

/-! ## Secret service (`credentials.rs` I/O operations)

The D-Bus secret service is a lockable collection of items; an item carries
attributes (modelled by the flag `matches`: whether it carries the fixed
`spot_credentials` attribute of `make_attributes()`) and a secret payload.
Transport-level D-Bus failures (which every `.await?` would propagate) are
not modelled; the logical outcomes (`NoResult`, lock state, deletions) are. -/

structure SecretEntry where
  matchesAttr : Bool
  secret : Credentials
deriving Repr, DecidableEq

structure SecretServiceState where
  locked : Bool
  entries : List SecretEntry
deriving Repr, DecidableEq

/-- The secret-service primitives invoked by `credentials.rs`, in call
order, recorded so that sequencing claims ("an unlock step precedes the
operation") are statable. -/
inductive SecretOp where
  | Connect
  | GetCollection
  | IsLocked
  | Unlock
  | SearchItems
  | GetSecret
  | DeleteItem
  | CreateItem
deriving Repr, DecidableEq

/-- Error type of the secret-service crate as used by `credentials.rs`:
`Error::NoResult` (no matching item) and `Error::Unavailable` (bad payload). -/
inductive SecretError where
  | NoResult
  | Unavailable
deriving Repr, DecidableEq

/-- `collection.search_items(make_attributes())`: the items carrying the
application attribute, in store order. -/
def search_items (svc : SecretServiceState) : List SecretEntry :=
  svc.entries.filter (·.matchesAttr)

/-- `Credentials::retrieve` (`credentials.rs` lines 31-40): connect, get the
default collection, unlock it if locked, search by the fixed attribute, take
the first item (else `NoResult`), read and decode its secret.  Decoding
always succeeds here because entries store the typed record directly. -/
def Credentials.retrieve (svc : SecretServiceState) :
    Except SecretError Credentials × SecretServiceState × List SecretOp :=
  let ops0 := [SecretOp.Connect, SecretOp.GetCollection, SecretOp.IsLocked]
  let (svc, ops) :=
    if svc.locked then ({ svc with locked := false }, ops0 ++ [SecretOp.Unlock])
    else (svc, ops0)
  let ops := ops ++ [SecretOp.SearchItems]
  match (search_items svc).head? with
  | none => (.error .NoResult, svc, ops)
  | some item => (.ok item.secret, svc, ops ++ [SecretOp.GetSecret])

/-- `Credentials::logout` (`credentials.rs` lines 43-54): connect, get the
collection, and only when it is NOT locked search for the first matching
item (else `NoResult`) and delete it; when locked it warns and returns
`Ok(())` without unlocking or deleting anything. -/
def Credentials.logout (svc : SecretServiceState) :
    Except SecretError Unit × SecretServiceState × List SecretOp :=
  let ops := [SecretOp.Connect, SecretOp.GetCollection, SecretOp.IsLocked]
  if svc.locked then
    (.ok (), svc, ops)
  else
    let ops := ops ++ [SecretOp.SearchItems]
    match (search_items svc).head? with
    | none => (.error .NoResult, svc, ops)
    | some item =>
      (.ok (), { svc with entries := svc.entries.erase item }, ops ++ [SecretOp.DeleteItem])

/-- `Credentials::save` (`credentials.rs` lines 56-76): connect, get the
collection, unlock it if locked, then `create_item(..., replace := true)`
with the fixed attributes — replacing any existing item with the same
attributes by the new one. -/
def Credentials.save (c : Credentials) (svc : SecretServiceState) :
    Except SecretError Unit × SecretServiceState × List SecretOp :=
  let ops0 := [SecretOp.Connect, SecretOp.GetCollection, SecretOp.IsLocked]
  let (svc, ops) :=
    if svc.locked then ({ svc with locked := false }, ops0 ++ [SecretOp.Unlock])
    else (svc, ops0)
  let entries := svc.entries.filter (fun e => !e.matchesAttr) ++ [⟨true, c⟩]
  (.ok (), { svc with entries := entries }, ops ++ [SecretOp.CreateItem])

/-! ## Token store (`src/player/token_store.rs`)

The store is a `RwLock<Option<Credentials>>` next to the secret-service
persistence.  Its state here is the cell's contents; the secret-service
state is threaded alongside, since `get`/`set`/`clear` call
`Credentials::{retrieve, save, logout}`. -/

structure TokenStoreState where
  cached : Option Credentials
  service : SecretServiceState
deriving Repr, DecidableEq

/-- `TokenStore::get_cached`: clone of the cell, no I/O. -/
def TokenStore.get_cached (st : TokenStoreState) : Option Credentials :=
  st.cached

/-- `TokenStore::get` (`token_store.rs` lines 24-40): return the cached
value if present; otherwise `Credentials::retrieve()` — on success populate
the cache, on failure log and return `None` (the error never propagates). -/
def TokenStore.get (st : TokenStoreState) : Option Credentials × TokenStoreState :=
  match st.cached with
  | some c => (some c, st)
  | none =>
    match Credentials.retrieve st.service with
    | (.ok token, svc, _) => (some token, { cached := some token, service := svc })
    | (.error _, svc, _) => (none, { cached := none, service := svc })

/-- `TokenStore::set` (`token_store.rs` lines 42-48): `creds.save()` is
best-effort (a failure is only logged), then the cache cell is replaced
unconditionally. -/
def TokenStore.set (creds : Credentials) (st : TokenStoreState) : TokenStoreState :=
  let (_, svc, _) := Credentials.save creds st.service
  { cached := some creds, service := svc }

/-- `TokenStore::clear` (`token_store.rs` lines 50-55): best-effort
`Credentials::logout()` (failure only logged), then the cell is emptied. -/
def TokenStore.clear (st : TokenStoreState) : TokenStoreState :=
  let (_, svc, _) := Credentials.logout st.service
  { cached := none, service := svc }

/-! ## OAuth client (`src/player/oauth2.rs`) -/

/-- Error enum `OAuthError` of `oauth2.rs` (payloads dropped where they are
only diagnostic strings). -/
inductive OAuthError where
  | AuthCodeNotFound
  | CsrfTokenNotFound
  | AuthCodeListenerBind
  | AuthCodeListenerTerminated
  | AuthCodeListenerParse
  | AuthCodeListenerWrite
  | ExchangeCode
  | NoRefreshToken
  | LoggedOut
  | InvalidState
deriving Repr, DecidableEq

/-- Successful response of the provider's token endpoint as consumed by
`oauth2.rs`: `access_token()`, optional `refresh_token()`, optional
`expires_in()` (seconds). -/
structure TokenResponse where
  access_token : String
  refresh_token : Option String
  expires_in : Option Nat
deriving Repr, DecidableEq

/-- Outcome of one `exchange_refresh_token(...).request_async(...)` call:
the network/provider is external, so it is an environment value. -/
structure RefreshEnv where
  now : Nat
  exchange : Except Unit TokenResponse
deriving Repr

/-- `SpotOauthClient::refresh_token` (`oauth2.rs` lines 153-191).  If the
refresh exchange fails (`let Ok(token) = ... else`), the token store is
cleared and the call fails with `NoRefreshToken`.  On success, a response
without a refresh token fails with `NoRefreshToken` WITHOUT clearing;
otherwise the new credential (expiry `now + expires_in`, defaulting to 3600
seconds) is stored and returned.  The third component counts exchange
attempts performed. -/
def refresh_token (env : RefreshEnv) (old_token : Credentials) (st : TokenStoreState) :
    Except OAuthError Credentials × TokenStoreState × Nat :=
  match env.exchange with
  | .error _ => (.error .NoRefreshToken, TokenStore.clear st, 1)
  | .ok token =>
    match token.refresh_token with
    | none => (.error .NoRefreshToken, st, 1)
    | some rt =>
      let new_token : Credentials :=
        { access_token := token.access_token
          refresh_token := rt
          token_expiry_time := some (env.now + token.expires_in.getD 3600) }
      (.ok new_token, TokenStore.set new_token st, 1)
  -- `old_token` is consumed by the exchange request only.

/-- `SpotOauthClient::get_valid_token` (`oauth2.rs` lines 144-151):
`token_store.get()` (else `LoggedOut`), then return the token as-is when it
is not expired, else `refresh_token` it.  The third component counts refresh
exchange attempts. -/
def get_valid_token (env : RefreshEnv) (st : TokenStoreState) :
    Except OAuthError Credentials × TokenStoreState × Nat :=
  match TokenStore.get st with
  | (none, st) => (.error .LoggedOut, st, 0)
  | (some token, st) =>
    if token.token_expired env.now then refresh_token env token st
    else (.ok token, st, 0)

/-- `SpotOauthClient::refresh_token_at_expiry` (`oauth2.rs` lines 193-211),
with the sleep elided (time is not modelled beyond `now`): a missing cached
token fails with `NoRefreshToken` immediately, otherwise the cached token is
refreshed. -/
def refresh_token_at_expiry (env : RefreshEnv) (st : TokenStoreState) :
    Except OAuthError Credentials × TokenStoreState × Nat :=
  match TokenStore.get_cached st with
  | none => (.error .NoRefreshToken, st, 0)
  | some old_token => refresh_token env old_token st

/-! ## OAuth callback parsing (`oauth2.rs` lines 286-309) -/

/-- Split a character list at every separator occurrence (`str::split` /
`slice::split` semantics: `n` separators give `n+1` pieces, empty pieces
included). -/
def splitOnChar (sep : Char) : List Char → List (List Char)
  | [] => [[]]
  | c :: rest =>
    if c = sep then [] :: splitOnChar sep rest
    else
      match splitOnChar sep rest with
      | h :: t => (c :: h) :: t
      | [] => [[c]]

/-- Accumulator worker for `split_whitespace`: `acc` is the current run,
reversed. -/
def splitWhitespaceAux (acc : List Char) : List Char → List (List Char)
  | [] => if acc.isEmpty then [] else [acc.reverse]
  | c :: rest =>
    if c.isWhitespace then
      if acc.isEmpty then splitWhitespaceAux [] rest
      else acc.reverse :: splitWhitespaceAux [] rest
    else splitWhitespaceAux (c :: acc) rest

/-- `str::split_whitespace`: maximal whitespace-free runs, in order (empty
pieces dropped). -/
def split_whitespace (s : List Char) : List (List Char) :=
  splitWhitespaceAux [] s

/-- Value of an ASCII hex digit, as `url::percent_encoding` accepts it. -/
def hexVal (c : Char) : Option Nat :=
  if '0' ≤ c ∧ c ≤ '9' then some (c.toNat - '0'.toNat)
  else if 'a' ≤ c ∧ c ≤ 'f' then some (c.toNat - 'a'.toNat + 10)
  else if 'A' ≤ c ∧ c ≤ 'F' then some (c.toNat - 'A'.toNat + 10)
  else none

/-- Decoding applied by `url::form_urlencoded::parse` to each name and
value: `+` becomes a space, `%hh` percent-escapes are decoded, anything else
passes through (a `%` not followed by two hex digits is literal).  Decoded
bytes are mapped straight to code points: the claims only involve ASCII, so
the crate's lossy UTF-8 step is the identity here. -/
def decodeChars : List Char → List Char
  | [] => []
  | '%' :: h1 :: h2 :: rest =>
    match hexVal h1, hexVal h2 with
    | some a, some b => Char.ofNat (16 * a + b) :: decodeChars rest
    | _, _ => '%' :: decodeChars (h1 :: h2 :: rest)
  | c :: rest => (if c = '+' then ' ' else c) :: decodeChars rest

/-- `url::form_urlencoded::parse(query)`: split the query on `&`, skip empty
pieces, split each piece at the first `=` (missing `=` gives an empty
value), and decode both sides. -/
def parseFormUrlencoded (query : List Char) : List (String × String) :=
  (splitOnChar '&' query).filterMap (fun piece =>
    if piece.isEmpty then none
    else
      let name := piece.takeWhile (fun c => c ≠ '=')
      let value := if name.length = piece.length then [] else piece.drop (name.length + 1)
      some (String.mk (decodeChars name), String.mk (decodeChars value)))

/-- Lookup in the `HashMap` built by `.collect()` from the pair iterator:
for a duplicated key the last pair wins. -/
def lookupLast (k : String) (l : List (String × String)) : Option String :=
  ((l.filter (fun p => p.1 = k)).getLast?).map (·.2)

/-- Result record `OAuthResult` of `oauth2.rs` (the `CsrfToken` /
`AuthorizationCode` wrappers are their secret strings). -/
structure OAuthResult where
  csrf_token : String
  code : String
deriving Repr, DecidableEq

/-- `parse_query` (`oauth2.rs` lines 286-309): take the second
whitespace-separated token of the request line, the part after the first `?`
(each missing step is `AuthCodeListenerParse`), parse it as a form-urlencoded
map, then remove `state` (else `CsrfTokenNotFound`) and `code` (else
`AuthCodeNotFound`). -/
def parse_query (request_line : String) : Except OAuthError OAuthResult :=
  match (split_whitespace request_line.toList).get? 1 with
  | none => .error .AuthCodeListenerParse
  | some target =>
    match (splitOnChar '?' target).get? 1 with
    | none => .error .AuthCodeListenerParse
    | some query =>
      let query_params := parseFormUrlencoded query
      match lookupLast "state" query_params with
      | none => .error .CsrfTokenNotFound
      | some csrf_token =>
        match lookupLast "code" query_params with
        | none => .error .AuthCodeNotFound
        | some code => .ok ⟨csrf_token, code⟩

/-- Environment of one `SpotOauthClient::get_token` run: the generated CSRF
token (`CsrfToken::new_random`), the request line the one-shot listener
reads, and the token-endpoint response for `exchange_code`. -/
structure GetTokenEnv where
  now : Nat
  csrf_token : String
  request_line : String
  exchange : Except Unit TokenResponse

/-- `SpotOauthClient::get_token` (`oauth2.rs` lines 77-142), from the
callback onwards: `wait_for_authcode` parses the request line; a state
different from the generated CSRF token fails with `InvalidState`; then the
code is exchanged, a response without refresh token is `NoRefreshToken`, and
the resulting credential is stored and returned. -/
def get_token (env : GetTokenEnv) (st : TokenStoreState) :
    Except OAuthError Credentials × TokenStoreState :=
  match parse_query env.request_line with
  | .error e => (.error e, st)
  | .ok res =>
    if env.csrf_token ≠ res.csrf_token then (.error .InvalidState, st)
    else
      match env.exchange with
      | .error _ => (.error .ExchangeCode, st)
      | .ok token =>
        match token.refresh_token with
        | none => (.error .NoRefreshToken, st)
        | some rt =>
          let tok : Credentials :=
            { access_token := token.access_token
              refresh_token := rt
              token_expiry_time := some (env.now + token.expires_in.getD 3600) }
          (.ok tok, TokenStore.set tok st)

/-! ## Session creation (`src/player/player.rs` lines 343-393) -/

/-- `SpotifyError` (`player.rs` lines 28-34). -/
inductive SpotifyError where
  | LoginFailed
  | LoggedOut
  | PlayerNotReady
  | TechnicalError
deriving Repr, DecidableEq

/-- Opaque session handle; identified by the port it was created for and the
username the connection reports (`session.username()`). -/
structure Session where
  ap_port : Option Nat
  username : String
deriving Repr, DecidableEq

/-- `KNOWN_AP_PORTS` (`player.rs` line 343): `[None, Some(80), Some(443), Some(4070)]`. -/
def KNOWN_AP_PORTS : List (Option Nat) := [none, some 80, some 443, some 4070]

/-- The port-probing loop inside `create_session` (`player.rs` lines
379-390), abstracted over the `create_session_with_port` call (`stub`): take
the next port; on `Err(TechnicalError)` `continue` with the remaining ports,
on anything else (success or any other error) `break` with that result; an
exhausted iterator breaks with `Err(TechnicalError)`.  The second component
records the ports actually tried, in order. -/
def probe_ports (stub : Option Nat → Except SpotifyError Session) :
    List (Option Nat) → Except SpotifyError Session × List (Option Nat)
  | [] => (.error .TechnicalError, [])
  | p :: rest =>
    match stub p with
    | .error .TechnicalError =>
      let (res, tried) := probe_ports stub rest
      (res, p :: tried)
    | res => (res, [p])

/-- `create_session` (`player.rs` lines 372-393): an explicitly configured
port is used directly; otherwise the `KNOWN_AP_PORTS` are probed in order.
The second component records the ports tried. -/
def create_session (stub : Option Nat → Except SpotifyError Session)
    (ap_port : Option Nat) : Except SpotifyError Session × List (Option Nat) :=
  match ap_port with
  | some _ => (stub ap_port, [ap_port])
  | none => probe_ports stub KNOWN_AP_PORTS

/-- `create_session_with_port` (`player.rs` lines 345-370): builds a session
for the given port and connects; `Ok(session)` on success and
`Err(LoginFailed)` on ANY connect error (the source matches every `Err(err)`
to `SpotifyError::LoginFailed`).  The network outcome per port is the
environment function `connectOk`; `username` is what the authenticated
session reports. -/
def create_session_with_port (connectOk : Option Nat → Bool) (username : String)
    (ap_port : Option Nat) : Except SpotifyError Session :=
  if connectOk ap_port then .ok ⟨ap_port, username⟩ else .error .LoginFailed

/-! ## The command actor (`src/player/player.rs` lines 87-341) -/

/-- `librespot::playback::config::Bitrate` as used by the settings. -/
inductive Bitrate where
  | Bitrate96
  | Bitrate160
  | Bitrate320
deriving Repr, DecidableEq

/-- `AudioBackend` (`player.rs` lines 61-66). -/
inductive AudioBackend where
  | GStreamer (pipeline : String)
  | PulseAudio
  | Alsa (device : String)
deriving Repr, DecidableEq

/-- `SpotifyPlayerSettings` (`player.rs` lines 68-74). -/
structure SpotifyPlayerSettings where
  bitrate : Bitrate
  backend : AudioBackend
  gapless : Bool
  ap_port : Option Nat
deriving Repr, DecidableEq

/-- `Default for SpotifyPlayerSettings` (`player.rs` lines 76-85). -/
def SpotifyPlayerSettings.default : SpotifyPlayerSettings :=
  { bitrate := .Bitrate160, gapless := true, backend := .PulseAudio, ap_port := none }

/-- The pending OAuth challenge held by the actor; of its fields only
`auth_url` is read by `player.rs` (`challenge.auth_url.clone()`). -/
structure AuthcodeChallenge where
  auth_url : String
deriving Repr, DecidableEq

/-- The soft mixer handle: its externally visible state is the volume last
set on it (`set_volume`). -/
structure MixerState where
  volume : Nat
deriving Repr, DecidableEq

/-- Opaque player handle, bound 1:1 to the session it was built over. -/
structure PlayerHandle where
  session : Session
deriving Repr, DecidableEq

/-- `VolumeCtrl::MAX_VOLUME` (librespot): `u16::MAX`. -/
def MAX_VOLUME : Nat := 65535

/-- Rust `as u16` applied to a finite `f64`: truncate toward zero and
saturate to `0 ..= 65535`. -/
def f64_as_u16 (x : ℚ) : Nat :=
  if x < 0 then 0 else min 65535 x.floor.toNat

/-- The volume scaling of the `PlayerSetVolume` handler (`player.rs` line
140): `(VolumeCtrl::MAX_VOLUME as f64 * volume) as u16`.  `volume` is an
`f64`; rationals model it exactly — for the inputs at issue (e.g. `0.5`)
every intermediate `f64` value is exactly representable, so the rational
product equals the `f64` product. -/
def scaled_volume (volume : ℚ) : Nat :=
  f64_as_u16 ((MAX_VOLUME : ℚ) * volume)

/-- Mutable state of `SpotifyPlayer` (`player.rs` lines 87-100), together
with the token store the actor's `oauth_client` shares. -/
structure ActorState where
  settings : SpotifyPlayerSettings
  player : Option PlayerHandle
  mixer : Option MixerState
  session : Option Session
  auth_challenge : Option AuthcodeChallenge
  token_store : TokenStoreState
deriving Repr, DecidableEq

/-- `Command` as consumed by `player.rs` (`handle`, lines 136-253): the
two-step login vocabulary `InitLogin`/`CompleteLogin`/`Restore` plus the
playback commands.  Track ids are opaque (`Nat`); the `f64` volume is a
rational. -/
inductive Command where
  | InitLogin
  | CompleteLogin
  | Restore
  | RefreshToken
  | Logout
  | PlayerLoad (track : Nat) (resume : Bool)
  | PlayerPreload (track : Nat)
  | PlayerResume
  | PlayerPause
  | PlayerStop
  | PlayerSeek (position : Nat)
  | PlayerSetVolume (volume : ℚ)
  | ReloadSettings
deriving Repr, DecidableEq

/-- Externally visible actions of one command: delegate callbacks
(`SpotifyPlayerDelegate`), spawned background tasks, and calls into the
player/mixer/session handles. -/
inductive Effect where
  | ReportError (e : SpotifyError)
  | LoginChallengeStarted (auth_url : String)
  | TokenLoginSuccessful (username : String)
  | RefreshSuccessful
  | SpawnedListener
  | SpawnedEventRelay
  | SpawnedRefreshLoop
  | PlayerPlay
  | PlayerPause
  | PlayerStop
  | PlayerSeek (position : Nat)
  | PlayerLoad (track : Nat) (resume : Bool)
  | PlayerPreload (track : Nat)
  | MixerSetVolume (v : Nat)
  | SessionConnect
  | SessionShutdown
deriving Repr, DecidableEq

/-- Environment of the actor: outcomes of every external interaction a
command may perform.  `connectOk p` is whether a session connect on
authentication-server port `p` succeeds (`create_session_with_port`);
`reconnectOk` is the `session.connect` inside the `RefreshToken` handler;
`spawnListener` and `exchangeAuthcode` are the oauth-client calls of the
two-step login (their implementation lives in the oauth client revision not
shipped under `src/`; only their result is consumed by `player.rs`). -/
structure ActorEnv where
  now : Nat
  refreshExchange : Except Unit TokenResponse
  spawnListener : Except Unit AuthcodeChallenge
  exchangeAuthcode : AuthcodeChallenge → Except Unit Credentials
  connectOk : Option Nat → Bool
  sessionUsername : String
  reconnectOk : Bool
  reloadedSettings : SpotifyPlayerSettings

/-- `RefreshEnv` view of the actor environment, for the oauth-client calls. -/
def ActorEnv.oauth (env : ActorEnv) : RefreshEnv :=
  { now := env.now, exchange := env.refreshExchange }

/-- `SpotifyPlayer::create_player` (`player.rs` lines 288-330): the mixer is
created once (`get_or_insert_with`) with `set_volume(MAX_VOLUME)` (100%) and
reused on later rebuilds; the player handle is bound to the given session. -/
def create_player (s : ActorState) (session : Session) :
    ActorState × PlayerHandle × List Effect :=
  match s.mixer with
  | some _ => (s, ⟨session⟩, [])
  | none =>
    ({ s with mixer := some ⟨MAX_VOLUME⟩ }, ⟨session⟩, [Effect.MixerSetVolume MAX_VOLUME])

/-- `SpotifyPlayer::initial_login` (`player.rs` lines 255-286):
`create_session` with the configured port (probing when none), spawn the
refresh-at-expiry loop, build a player over the new session, spawn its event
relay, install player and session, and notify the delegate of the username. -/
def initial_login (env : ActorEnv) (s : ActorState) (_credentials : Credentials) :
    Except SpotifyError Unit × ActorState × List Effect :=
  match create_session (create_session_with_port env.connectOk env.sessionUsername)
      s.settings.ap_port with
  | (.error e, _) => (.error e, s, [])
  | (.ok new_session, _) =>
    let (s, player, mixerEffs) := create_player s new_session
    (.ok (), { s with player := some player, session := some new_session },
      [Effect.SpawnedRefreshLoop] ++ mixerEffs ++
        [Effect.SpawnedEventRelay, Effect.TokenLoginSuccessful new_session.username])

/-- `SpotifyPlayer::handle` (`player.rs` lines 136-253), one command to
completion: result, successor state, and the effects performed (in order). -/
def handle (env : ActorEnv) (s : ActorState) (action : Command) :
    Except SpotifyError Unit × ActorState × List Effect :=
  match action with
  | .PlayerSetVolume volume =>
    match s.mixer with
    | some _ =>
      (.ok (), { s with mixer := some ⟨scaled_volume volume⟩ },
        [Effect.MixerSetVolume (scaled_volume volume)])
    | none => (.ok (), s, [])
  | .PlayerResume =>
    match s.player with
    | some _ => (.ok (), s, [Effect.PlayerPlay])
    | none => (.error .PlayerNotReady, s, [])
  | .PlayerPause =>
    match s.player with
    | some _ => (.ok (), s, [Effect.PlayerPause])
    | none => (.error .PlayerNotReady, s, [])
  | .PlayerStop =>
    match s.player with
    | some _ => (.ok (), s, [Effect.PlayerStop])
    | none => (.error .PlayerNotReady, s, [])
  | .PlayerSeek position =>
    match s.player with
    | some _ => (.ok (), s, [Effect.PlayerSeek position])
    | none => (.error .PlayerNotReady, s, [])
  | .PlayerLoad track resume =>
    match s.player with
    | some _ => (.ok (), s, [Effect.PlayerLoad track resume])
    | none => (.error .PlayerNotReady, s, [])
  | .PlayerPreload track =>
    match s.player with
    | some _ => (.ok (), s, [Effect.PlayerPreload track])
    | none => (.error .PlayerNotReady, s, [])
  | .RefreshToken =>
    match s.session with
    | none => (.error .PlayerNotReady, s, [])
    | some _ =>
      match get_valid_token env.oauth s.token_store with
      | (.error _, ts, _) => (.error .LoginFailed, { s with token_store := ts }, [])
      | (.ok _, ts, _) =>
        let s := { s with token_store := ts }
        if env.reconnectOk then
          (.ok (), s, [Effect.SessionConnect, Effect.RefreshSuccessful])
        else (.error .LoginFailed, s, [Effect.SessionConnect])
  | .Logout =>
    match s.session with
    | none => (.error .PlayerNotReady, s, [])
    | some _ =>
      (.ok (), { s with session := none, player := none }, [Effect.SessionShutdown])
  | .Restore =>
    match get_valid_token env.oauth s.token_store with
    | (.error e, ts, _) =>
      (.error (match e with | .LoggedOut => .LoggedOut | _ => .LoginFailed),
        { s with token_store := ts }, [])
    | (.ok credentials, ts, _) =>
      initial_login env { s with token_store := ts } credentials
  | .InitLogin =>
    match s.auth_challenge with
    | some challenge => (.ok (), s, [Effect.LoginChallengeStarted challenge.auth_url])
    | none =>
      match env.spawnListener with
      | .error _ => (.error .LoginFailed, s, [])
      | .ok challenge =>
        (.ok (), { s with auth_challenge := some challenge },
          [Effect.SpawnedListener, Effect.LoginChallengeStarted challenge.auth_url])
  | .CompleteLogin =>
    match s.auth_challenge with
    | none => (.error .LoginFailed, s, [])
    | some challenge =>
      let s := { s with auth_challenge := none }
      match env.exchangeAuthcode challenge with
      | .error _ => (.error .LoginFailed, s, [])
      | .ok credentials => initial_login env s credentials
  | .ReloadSettings =>
    let s := { s with settings := env.reloadedSettings }
    match s.session with
    | none => (.error .PlayerNotReady, s, [])
    | some session =>
      let s := { s with session := none }
      let (s, player, mixerEffs) := create_player s session
      (.ok (), { s with player := some player },
        mixerEffs ++ [Effect.SpawnedEventRelay])

/-- `SpotifyPlayer::handle_and_notify` (`player.rs` lines 121-126): run the
handler; an `Err` is forwarded to `delegate.report_error` and the actor
carries on with the resulting state. -/
def handle_and_notify (env : ActorEnv) (s : ActorState) (action : Command) :
    ActorState × List Effect :=
  match handle env s action with
  | (.ok _, s, effs) => (s, effs)
  | (.error e, s, effs) => (s, effs ++ [Effect.ReportError e])

/-- `SpotifyPlayer::start` (`player.rs` lines 332-341): fold
`handle_and_notify` over the command stream, threading the actor. -/
def run (env : ActorEnv) (s : ActorState) : List Command → ActorState × List Effect
  | [] => (s, [])
  | action :: rest =>
    let (s1, effs1) := handle_and_notify env s action
    let (s2, effs2) := run env s1 rest
    (s2, effs1 ++ effs2)

/-! ## Concrete fixtures used by witnesses and counterexamples -/

/-- A concrete credential with expiry time 100. -/
def cred0 : Credentials := ⟨"access0", "refresh0", some 100⟩

/-- An unlocked, empty secret service. -/
def svcEmpty : SecretServiceState := ⟨false, []⟩

/-- A LOCKED secret service holding this application's entry. -/
def svcLocked : SecretServiceState := ⟨true, [⟨true, cred0⟩]⟩

/-- An unlocked secret service holding this application's entry. -/
def svcOne : SecretServiceState := ⟨false, [⟨true, cred0⟩]⟩

/-- Token store with `cred0` cached, over an unlocked empty service. -/
def stCached : TokenStoreState := ⟨some cred0, svcEmpty⟩

/-- Empty token store over an unlocked empty service. -/
def stEmpty : TokenStoreState := ⟨none, svcEmpty⟩

/-- A refresh environment whose exchange succeeds. -/
def refreshOk : RefreshEnv := ⟨0, .ok ⟨"access1", some "refresh1", some 3600⟩⟩

/-- A refresh environment whose exchange fails hard. -/
def refreshErr : RefreshEnv := ⟨0, .error ()⟩

/-- The `create_session` stub of the spec's port-probing property:
`TechnicalError` for the first two known ports, success on any later one. -/
def stubC3 : Option Nat → Except SpotifyError Session
  | none => .error .TechnicalError
  | some 80 => .error .TechnicalError
  | some p => .ok ⟨some p, "user"⟩

/-- Actor environment in which every external interaction succeeds. -/
def env0 : ActorEnv :=
  { now := 0
    refreshExchange := .ok ⟨"access1", some "refresh1", some 3600⟩
    spawnListener := .ok ⟨"https://accounts.example/authorize"⟩
    exchangeAuthcode := fun _ => .ok cred0
    connectOk := fun _ => true
    sessionUsername := "alice"
    reconnectOk := true
    reloadedSettings := SpotifyPlayerSettings.default }

/-- Freshly constructed actor (`SpotifyPlayer::new`): no player, mixer,
session or pending challenge; a valid token is cached. -/
def s0 : ActorState :=
  { settings := SpotifyPlayerSettings.default
    player := none
    mixer := none
    session := none
    auth_challenge := none
    token_store := stCached }

/-- Actor state whose mixer exists at 100% volume. -/
def sMix : ActorState := { s0 with mixer := some ⟨MAX_VOLUME⟩ }

/-- Actor state with a pending challenge. -/
def sChal : ActorState :=
  { s0 with auth_challenge := some ⟨"https://accounts.example/authorize"⟩ }

/-- `get_token` environment whose generated CSRF token does not match the
`state` of the callback. -/
def envMismatch : GetTokenEnv :=
  { now := 0
    csrf_token := "AAA"
    request_line := "GET /login?state=XYZ&code=ABC HTTP/1.1"
    exchange := .ok ⟨"access1", some "refresh1", some 3600⟩ }

/-! ## Claims -/

/-- C7: for every `Credentials` value `c`, `token_expired(c)` is true when
`token_expiry_time` is `None`, and otherwise equals `current time > expiry`. -/
theorem C7_token_expired (now : Nat) (c : Credentials) :
    (c.token_expiry_time = none → c.token_expired now = true) ∧
    (∀ v, c.token_expiry_time = some v → c.token_expired now = decide (now > v)) := by
  refine ⟨fun h => ?_, fun v h => ?_⟩ <;> simp [Credentials.token_expired, h]

/-- Witness for C7 at expiry `none` and at expiry 100 with `now = 7`. -/
theorem C7_token_expired_witness :
    Credentials.token_expired 7 ⟨"a", "r", none⟩ = true ∧
    Credentials.token_expired 7 cred0 = decide (7 > 100) :=
  ⟨(C7_token_expired 7 ⟨"a", "r", none⟩).1 rfl,
   (C7_token_expired 7 cred0).2 100 rfl⟩

/-- C2: a cached credential with strictly-future expiry is returned by
`get_valid_token` with no refresh attempt; a cached expired credential
triggers exactly one refresh attempt; with nothing cached and nothing
retrievable the call fails with `LoggedOut`. -/
theorem C2_get_valid_token (env : RefreshEnv) (st : TokenStoreState) (c : Credentials) (t : Nat) :
    (st.cached = some c → c.token_expiry_time = some t → env.now < t →
      get_valid_token env st = (.ok c, st, 0)) ∧
    (st.cached = some c → c.token_expired env.now = true →
      (get_valid_token env st).2.2 = 1) ∧
    (st.cached = none → (∃ e, (Credentials.retrieve st.service).1 = .error e) →
      (get_valid_token env st).1 = .error .LoggedOut) := by
  refine ⟨fun hc ht hlt => ?_, fun hc hexp => ?_, fun hc ⟨e, he⟩ => ?_⟩
  · have hnot : c.token_expired env.now = false := by
      simp [Credentials.token_expired, ht]
      omega
    simp [get_valid_token, TokenStore.get, hc, hnot]
  · simp [get_valid_token, TokenStore.get, hc, hexp, refresh_token]
    rcases env.exchange with _ | tok
    · simp
    · rcases h2 : tok.refresh_token with _ | rt <;> simp [h2]
  · simp [get_valid_token, TokenStore.get, hc]
    rcases hr : Credentials.retrieve st.service with ⟨res, svc, ops⟩
    rw [hr] at he
    simp at he
    subst he
    simp

/-- Witness for C2: fresh cached token at `now = 0`, expired cached token at
`now = 1000`, and an empty cache over an empty service. -/
theorem C2_get_valid_token_witness :
    get_valid_token refreshOk stCached = (.ok cred0, stCached, 0) ∧
    (get_valid_token ⟨1000, refreshOk.exchange⟩ stCached).2.2 = 1 ∧
    (get_valid_token refreshOk stEmpty).1 = .error .LoggedOut :=
  ⟨(C2_get_valid_token refreshOk stCached cred0 100).1 rfl rfl (by decide),
   (C2_get_valid_token ⟨1000, refreshOk.exchange⟩ stCached cred0 100).2.1 rfl (by decide),
   (C2_get_valid_token refreshOk stEmpty cred0 100).2.2 rfl ⟨.NoResult, rfl⟩⟩

/-- C4: when the refresh exchange fails hard, `refresh_token` clears the
token cache (the in-memory cell is emptied, after a best-effort secret-store
logout) and fails with `NoRefreshToken`; the one exchange attempt is the
only one made. -/
theorem C4_refresh_failure_clears (env : RefreshEnv) (old : Credentials)
    (st : TokenStoreState) (h : env.exchange = .error ()) :
    refresh_token env old st = (.error .NoRefreshToken, TokenStore.clear st, 1) ∧
    (TokenStore.clear st).cached = none := by
  refine ⟨?_, rfl⟩
  simp [refresh_token, h]

/-- Witness for C4 at a failing exchange over the cached store. -/
theorem C4_refresh_failure_clears_witness :
    refresh_token refreshErr cred0 stCached = (.error .NoRefreshToken, TokenStore.clear stCached, 1) ∧
    (TokenStore.clear stCached).cached = none :=
  C4_refresh_failure_clears refreshErr cred0 stCached rfl

/-- C10: the concrete `create_session_with_port` yields either a session or
`LoginFailed` — never `TechnicalError`; hence in the unconfigured-port case
the probe loop stops at the very first port, whatever happens there (it
never advances past a failing port), and only an exhausted port list would
yield `TechnicalError`. -/
theorem C10_real_probe (connectOk : Option Nat → Bool) (u : String) (p : Option Nat)
    (stub : Option Nat → Except SpotifyError Session) :
    (create_session_with_port connectOk u p = .ok ⟨p, u⟩ ∨
      create_session_with_port connectOk u p = .error .LoginFailed) ∧
    (create_session (create_session_with_port connectOk u) none =
      (create_session_with_port connectOk u none, [none])) ∧
    (probe_ports stub [] = (.error .TechnicalError, [])) := by
  refine ⟨?_, ?_, rfl⟩
  · by_cases h : connectOk p = true
    · exact .inl (by simp [create_session_with_port, h])
    · exact .inr (by simp [create_session_with_port, h])
  · simp only [create_session, KNOWN_AP_PORTS, probe_ports]
    by_cases h : connectOk none = true
    · simp [create_session_with_port, h, probe_ports]
    · simp [create_session_with_port, h, probe_ports]

/-- C3 counterexample: with the spec's own stub — `TechnicalError` on the
first two known ports, success on the third — the session is established on
port 443 (the third entry of `KNOWN_AP_PORTS`), not on port 4070, and port
4070 is never tried.  The claim's concrete scenario names the wrong port. -/
theorem C3_counterexample :
    (create_session stubC3 none).1 = .ok ⟨some 443, "user"⟩ ∧
    (Session.mk (some 443) "user").ap_port ≠ some 4070 ∧
    some 4070 ∉ (create_session stubC3 none).2 :=
  ⟨rfl, by decide, by decide⟩

/-- C3 (amended): with no explicit port, ports are probed in the fixed
order `KNOWN_AP_PORTS = [default, 80, 443, 4070]`; a `TechnicalError` moves
on to the next port, any other outcome (success or other error) stops
immediately; an explicit port is used directly.  In the spec's scenario the
session is established on port 443 — the third port — and port 4070 is not
tried. -/
theorem C3_port_probing (stub : Option Nat → Except SpotifyError Session)
    (p : Option Nat) (rest : List (Option Nat)) (q : Nat) :
    create_session stub (some q) = (stub (some q), [some q]) ∧
    create_session stub none = probe_ports stub KNOWN_AP_PORTS ∧
    (stub p = .error .TechnicalError →
      probe_ports stub (p :: rest) =
        ((probe_ports stub rest).1, p :: (probe_ports stub rest).2)) ∧
    (stub p ≠ .error .TechnicalError → probe_ports stub (p :: rest) = (stub p, [p])) ∧
    create_session stubC3 none = (.ok ⟨some 443, "user"⟩, [none, some 80, some 443]) := by
  refine ⟨rfl, rfl, fun h => ?_, fun h => ?_, rfl⟩
  · simp [probe_ports, h]
  · rcases hs : stub p with e | sess
    · cases e
      case TechnicalError => exact absurd hs h
      all_goals simp [probe_ports, hs]
    · simp [probe_ports, hs]

/-- Witness for C3 (amended): the retry step at the head of the known
ports, and the stop step at port 443 where the stub succeeds. -/
theorem C3_port_probing_witness :
    probe_ports stubC3 KNOWN_AP_PORTS =
      ((probe_ports stubC3 [some 80, some 443, some 4070]).1,
        none :: (probe_ports stubC3 [some 80, some 443, some 4070]).2) ∧
    probe_ports stubC3 [some 443, some 4070] = (stubC3 (some 443), [some 443]) := by
  have h1 := C3_port_probing stubC3 none [some 80, some 443, some 4070] 4070
  have h2 := C3_port_probing stubC3 (some 443) [some 4070] 4070
  exact ⟨h1.2.2.1 rfl, h2.2.2.2.1 (fun hx => Except.noConfusion hx)⟩

/-- A login that succeeded installed a player: helper about
`initial_login`. -/
theorem initial_login_installs_player (env : ActorEnv) (s : ActorState) (c : Credentials)
    (h : (initial_login env s c).1 = .ok ()) :
    ∃ ph, (initial_login env s c).2.1.player = some ph := by
  unfold initial_login at h ⊢
  rcases hc : create_session (create_session_with_port env.connectOk env.sessionUsername)
      s.settings.ap_port with ⟨res, tried⟩
  rcases res with e | sess
  · rw [hc] at h; simp at h
  · rcases hm : s.mixer with _ | m <;> simp [create_player, hm]

/-- C1: every command handler's error is reported to the delegate's
`report_error` and the actor carries on with the next queued command (the
loop folds on, never tearing down); `PlayerLoad` before any successful login
fails with `PlayerNotReady`, and after a `Restore` that succeeded a
`PlayerLoad` succeeds. -/
theorem C1_errors_reported (env : ActorEnv) (s : ActorState) (action : Command)
    (rest : List Command) (t : Nat) (r : Bool) :
    (∀ e, (handle env s action).1 = .error e →
      handle_and_notify env s action =
        ((handle env s action).2.1, (handle env s action).2.2 ++ [Effect.ReportError e])) ∧
    run env s (action :: rest) =
      ((run env (handle_and_notify env s action).1 rest).1,
        (handle_and_notify env s action).2 ++ (run env (handle_and_notify env s action).1 rest).2) ∧
    (s.player = none → (handle env s (.PlayerLoad t r)).1 = .error .PlayerNotReady) ∧
    ((handle env s .Restore).1 = .ok () →
      (handle env (handle env s .Restore).2.1 (.PlayerLoad t r)).1 = .ok ()) ∧
    ((handle env s .CompleteLogin).1 = .ok () →
      (handle env (handle env s .CompleteLogin).2.1 (.PlayerLoad t r)).1 = .ok ()) := by
  refine ⟨fun e he => ?_, rfl, fun hp => ?_, fun hok => ?_, fun hok => ?_⟩
  · rcases hh : handle env s action with ⟨res, s', effs⟩
    rw [hh] at he
    simp at he
    subst he
    simp [handle_and_notify, hh]
  · simp [handle, hp]
  · rcases hg : get_valid_token env.oauth s.token_store with ⟨res, ts, n⟩
    rcases res with oe | credentials
    · simp [handle, hg] at hok
    · have hres : handle env s Command.Restore =
          initial_login env { s with token_store := ts } credentials := by
        simp [handle, hg]
      rw [hres] at hok ⊢
      obtain ⟨ph, hp⟩ := initial_login_installs_player env _ credentials hok
      simp [handle, hp]
  · rcases hch : s.auth_challenge with _ | challenge
    · simp [handle, hch] at hok
    · rcases hex : env.exchangeAuthcode challenge with u | credentials
      · simp [handle, hch, hex] at hok
      · have hres : handle env s Command.CompleteLogin =
            initial_login env { s with auth_challenge := none } credentials := by
          simp [handle, hch, hex]
        rw [hres] at hok ⊢
        obtain ⟨ph, hp⟩ := initial_login_installs_player env _ credentials hok
        simp [handle, hp]

/-- Witness for C1: fresh actor with a valid cached token in the
all-succeeding environment — the early `PlayerLoad` is turned into a
`report_error(PlayerNotReady)` callback, and after `Restore` the same
`PlayerLoad` succeeds. -/
theorem C1_errors_reported_witness :
    handle_and_notify env0 s0 (Command.PlayerLoad 7 true) =
      ((handle env0 s0 (Command.PlayerLoad 7 true)).2.1,
        (handle env0 s0 (Command.PlayerLoad 7 true)).2.2 ++
          [Effect.ReportError .PlayerNotReady]) ∧
    (handle env0 (handle env0 s0 Command.Restore).2.1 (Command.PlayerLoad 7 true)).1 =
      .ok () ∧
    (handle env0 (handle env0 sChal Command.CompleteLogin).2.1 (Command.PlayerLoad 7 true)).1 =
      .ok () := by
  have h := C1_errors_reported env0 s0 (Command.PlayerLoad 7 true) [] 7 true
  have h2 := C1_errors_reported env0 sChal (Command.PlayerLoad 7 true) [] 7 true
  exact ⟨h.1 .PlayerNotReady (h.2.2.1 rfl), h.2.2.2.1 rfl, h2.2.2.2.2 rfl⟩

/-- C5: with a pending challenge, `InitLogin` re-delivers the pending
`auth_url` to the delegate, leaves the actor state (and so the stored
challenge) untouched, and spawns no second listener. -/
theorem C5_single_challenge (env : ActorEnv) (s : ActorState)
    (challenge : AuthcodeChallenge) (h : s.auth_challenge = some challenge) :
    handle env s .InitLogin =
      (.ok (), s, [Effect.LoginChallengeStarted challenge.auth_url]) ∧
    Effect.SpawnedListener ∉ (handle env s .InitLogin).2.2 := by
  have h1 : handle env s Command.InitLogin =
      (.ok (), s, [Effect.LoginChallengeStarted challenge.auth_url]) := by
    simp [handle, h]
  refine ⟨h1, ?_⟩
  rw [h1]
  simp

/-- Witness for C5 at the actor state holding a pending challenge. -/
theorem C5_single_challenge_witness :
    handle env0 sChal .InitLogin =
      (.ok (), sChal,
        [Effect.LoginChallengeStarted "https://accounts.example/authorize"]) :=
  (C5_single_challenge env0 sChal ⟨"https://accounts.example/authorize"⟩ rfl).1

/-- C6: the OAuth callback request line
`GET /login?state=XYZ&code=ABC HTTP/1.1` parses to `csrf_token = XYZ`,
`code = ABC`; a request line whose query carries no `state` parameter fails
with `CsrfTokenNotFound`; and a parsed callback whose state differs from the
generated CSRF token makes the flow fail with `InvalidState`. -/
theorem C6_callback_parsing (line : String) (target query : List Char)
    (env : GetTokenEnv) (st : TokenStoreState) (res : OAuthResult) :
    parse_query "GET /login?state=XYZ&code=ABC HTTP/1.1" = .ok ⟨"XYZ", "ABC"⟩ ∧
    ((split_whitespace line.data)[1]? = some target →
      (splitOnChar '?' target)[1]? = some query →
      lookupLast "state" (parseFormUrlencoded query) = none →
      parse_query line = .error .CsrfTokenNotFound) ∧
    (parse_query env.request_line = .ok res → env.csrf_token ≠ res.csrf_token →
      (get_token env st).1 = .error .InvalidState) := by
  refine ⟨rfl, fun h1 h2 h3 => ?_, fun hp hne => ?_⟩
  · simp [parse_query, h1, h2, h3]
  · simp [get_token, hp, hne]

/-- Witness for C6: a callback without `state` and a mismatched-state
callback against CSRF token `AAA`. -/
theorem C6_callback_parsing_witness :
    parse_query "GET /login?code=ABC HTTP/1.1" = .error .CsrfTokenNotFound ∧
    (get_token envMismatch stEmpty).1 = .error .InvalidState := by
  have h := C6_callback_parsing "GET /login?code=ABC HTTP/1.1"
    "/login?code=ABC".toList "code=ABC".toList envMismatch stEmpty ⟨"XYZ", "ABC"⟩
  exact ⟨h.2.1 rfl rfl rfl, h.2.2 rfl (by decide)⟩

/-- C8 counterexample: `PlayerSetVolume(0.5)` on a live mixer sets the
device volume to 32767, and 32767 is NOT exactly half of the maximum device
volume `VolumeCtrl::MAX_VOLUME = 65535` (which is odd): the `f64` product
32767.5 is truncated by the `as u16` cast. -/
theorem C8_counterexample :
    (handle env0 sMix (Command.PlayerSetVolume (1/2))).2.1.mixer = some ⟨32767⟩ ∧
    2 * 32767 ≠ MAX_VOLUME := by
  have hv : scaled_volume (1/2) = 32767 := by
    norm_num [scaled_volume, f64_as_u16, MAX_VOLUME, Rat.floor]
    decide
  refine ⟨?_, by decide⟩
  show (some (MixerState.mk (scaled_volume (1/2))) : Option MixerState) =
    some (MixerState.mk 32767)
  rw [hv]

/-- C8 (amended): `PlayerSetVolume(v)` never fails (no mixer means a silent
no-op); with a mixer present it sets the device volume to
`(MAX_VOLUME as f64 * v) as u16`; at `v = 0.5` that is
`⌊MAX_VOLUME / 2⌋ = 32767`, one below the midpoint of the odd maximum
65535 = 2·32767 + 1. -/
theorem C8_volume_scaling (env : ActorEnv) (s : ActorState) (m : MixerState) (v : ℚ) :
    (handle env s (Command.PlayerSetVolume v)).1 = .ok () ∧
    (s.mixer = some m →
      (handle env s (Command.PlayerSetVolume v)).2.1.mixer = some ⟨scaled_volume v⟩) ∧
    scaled_volume (1/2) = 32767 ∧ MAX_VOLUME = 2 * 32767 + 1 := by
  refine ⟨?_, fun h => by simp [handle, h], ?_, by decide⟩
  · rcases hm : s.mixer with _ | m' <;> simp [handle, hm]
  · norm_num [scaled_volume, f64_as_u16, MAX_VOLUME, Rat.floor]
    decide

/-- Witness for C8 (amended) at the mixer-present actor state. -/
theorem C8_volume_scaling_witness :
    (handle env0 sMix (Command.PlayerSetVolume (1/2))).2.1.mixer =
      some ⟨scaled_volume (1/2)⟩ :=
  (C8_volume_scaling env0 sMix ⟨MAX_VOLUME⟩ (1/2)).2.1 rfl

/-- C9 counterexample: on a LOCKED secret store holding this application's
entry, `logout` performs no unlock step, deletes nothing, and returns
success — contradicting both "an explicit unlock step precedes the
operation" and "logout deletes the matching entry". -/
theorem C9_counterexample :
    (Credentials.logout svcLocked).1 = .ok () ∧
    SecretOp.Unlock ∉ (Credentials.logout svcLocked).2.2 ∧
    (Credentials.logout svcLocked).2.1 = svcLocked :=
  ⟨rfl, by decide, rfl⟩

/-- C9 (amended): `retrieve` and `save` unlock the collection first when it
is locked; `logout` operates only when the store is already unlocked — it
then deletes this application's first matching entry and fails with
`NoResult` (NotFound) when no matching entry exists — and when the store is
locked it performs no unlock and no deletion and returns success. -/
theorem C9_secret_store_ops (svc : SecretServiceState) (c : Credentials) (e : SecretEntry) :
    (svc.locked = true →
      (Credentials.retrieve svc).2.2.take 4 =
        [SecretOp.Connect, SecretOp.GetCollection, SecretOp.IsLocked, SecretOp.Unlock]) ∧
    (svc.locked = true →
      (Credentials.save c svc).2.2.take 4 =
        [SecretOp.Connect, SecretOp.GetCollection, SecretOp.IsLocked, SecretOp.Unlock]) ∧
    (svc.locked = false → (search_items svc).head? = some e →
      Credentials.logout svc =
        (.ok (), { svc with entries := svc.entries.erase e },
          [SecretOp.Connect, SecretOp.GetCollection, SecretOp.IsLocked,
            SecretOp.SearchItems, SecretOp.DeleteItem])) ∧
    (svc.locked = false → (search_items svc).head? = none →
      (Credentials.logout svc).1 = .error .NoResult) ∧
    (svc.locked = true →
      Credentials.logout svc =
        (.ok (), svc, [SecretOp.Connect, SecretOp.GetCollection, SecretOp.IsLocked])) := by
  refine ⟨fun hl => ?_, fun hl => ?_, fun hl he => ?_, fun hl he => ?_, fun hl => ?_⟩
  · rcases hh : (search_items { locked := false, entries := svc.entries }).head? with _ | item <;>
      simp [Credentials.retrieve, hl, hh]
  · simp [Credentials.save, hl]
  · simp [Credentials.logout, hl, he]
  · simp [Credentials.logout, hl, he]
  · simp [Credentials.logout, hl]

/-- Witness for C9 (amended): locked store for `retrieve`/`save`, unlocked
one-entry store for the deleting `logout`, unlocked empty store for the
`NoResult` failure, locked store for the no-op `logout`. -/
theorem C9_secret_store_ops_witness :
    (Credentials.retrieve svcLocked).2.2.take 4 =
      [SecretOp.Connect, SecretOp.GetCollection, SecretOp.IsLocked, SecretOp.Unlock] ∧
    (Credentials.save cred0 svcLocked).2.2.take 4 =
      [SecretOp.Connect, SecretOp.GetCollection, SecretOp.IsLocked, SecretOp.Unlock] ∧
    Credentials.logout svcOne =
      (.ok (), { svcOne with entries := svcOne.entries.erase ⟨true, cred0⟩ },
        [SecretOp.Connect, SecretOp.GetCollection, SecretOp.IsLocked,
          SecretOp.SearchItems, SecretOp.DeleteItem]) ∧
    (Credentials.logout svcEmpty).1 = .error .NoResult ∧
    Credentials.logout svcLocked =
      (.ok (), svcLocked, [SecretOp.Connect, SecretOp.GetCollection, SecretOp.IsLocked]) := by
  have h1 := C9_secret_store_ops svcLocked cred0 ⟨true, cred0⟩
  have h2 := C9_secret_store_ops svcOne cred0 ⟨true, cred0⟩
  have h3 := C9_secret_store_ops svcEmpty cred0 ⟨true, cred0⟩
  exact ⟨h1.1 rfl, h1.2.1 rfl, h2.2.2.1 rfl rfl, h3.2.2.2.1 rfl rfl, h1.2.2.2.2 rfl⟩

end Riff
